import Mathlib

/-!
Verification of SaschaWillems/ModernVkTriangle (src/main.cpp) against its
natural-language specification.

The file shallowly embeds the parts of `main.cpp` the claims are about:
the `chk` error helpers, the one-time setup sequence, the render loop's
per-frame statement sequence, its double-buffered fence protocol, the
event-and-render loop, the window-resize swapchain-recreation handler,
the teardown loop, and the mesh-loading index generation.  Machine
integers are modelled as `Int`/`Nat` with explicit truncation where the
C++ code truncates.
-/

/-! ## Constants from main.cpp -/

/-- `constexpr uint32_t maxFramesInFlight{ 2 }` (main.cpp line 40). -/
def maxFramesInFlight : Nat := 2

/-- The Vulkan success code `VK_SUCCESS = 0`. -/
def VK_SUCCESS : Int := 0

/-- The Vulkan error code `VK_ERROR_OUT_OF_DATE_KHR = -1000001000`. -/
def VK_ERROR_OUT_OF_DATE_KHR : Int := -1000001000

/-! ## The chk error helpers (main.cpp lines 27-38)

`chk(VkResult)` calls `exit(result)` whenever `result != VK_SUCCESS`;
`chk(bool)` calls `exit(result)` whenever `!result`, where the C++ bool
converts to the int 0 on the failing (false) branch.  An outcome is
either "control continues past the call" or "the process exited with
this argument to exit()". -/

/-- Outcome of one `chk` call: control passes, or the process exited
with the given argument to `exit`. -/
inductive ChkOutcome where
  | passed
  | exited (code : Int)
  deriving DecidableEq, Repr

/-- C++ implicit conversion of `bool` to `int`. -/
def boolToInt (b : Bool) : Int := if b then 1 else 0

/-- `chk(VkResult result)` from main.cpp lines 27-32. -/
def chkVk (result : Int) : ChkOutcome :=
  if result = VK_SUCCESS then ChkOutcome.passed else ChkOutcome.exited result

/-- `chk(bool result)` from main.cpp lines 33-38: on failure it calls
`exit(result)` with the bool converted to int. -/
def chkBool (result : Bool) : ChkOutcome :=
  if result then ChkOutcome.passed else ChkOutcome.exited (boolToInt result)

/-- The process exit status the operating system reports for a call
`exit(code)`: the code taken modulo 256 (POSIX). -/
def processStatus (code : Int) : Int := Int.emod code 256

/-- A result fed into one of the two `chk` overloads. -/
inductive CheckedResult where
  | vk (r : Int)
  | boolean (b : Bool)
  deriving DecidableEq, Repr

/-- Dispatch of a checked result to the matching `chk` overload. -/
def chkResult : CheckedResult → ChkOutcome
  | CheckedResult.vk r => chkVk r
  | CheckedResult.boolean b => chkBool b

/-- Whether a checked result is an error result in the sense of the
spec: a VkResult other than VK_SUCCESS, or a false boolean. -/
def isFailure : CheckedResult → Bool
  | CheckedResult.vk r => decide (r ≠ VK_SUCCESS)
  | CheckedResult.boolean b => !b

/-- Running a straight-line sequence of checked operations: each
statement's result goes through `chk`; `exit` stops the process, so
execution stops at the first failing result.  Returns the number of
checked statements that actually executed. -/
def runChecked : List CheckedResult → Nat
  | [] => 0
  | c :: rest =>
    match chkResult c with
    | ChkOutcome.passed => 1 + runChecked rest
    | ChkOutcome.exited _ => 1

/-! ## Handling of the two swapchain-related results in the loop -/

/-- Main.cpp line 407: the return value of `vkAcquireNextImageKHR` is
discarded (the call is not wrapped in `chk`), so control always
continues regardless of the result. -/
def onAcquireResult (_result : Int) : ChkOutcome := ChkOutcome.passed

/-- Main.cpp line 517: `chk(vkQueuePresentKHR(...))` — the present
result goes through `chk(VkResult)`. -/
def onPresentResult (result : Int) : ChkOutcome := chkVk result

/-! ## The per-frame statement sequence (main.cpp lines 404-517)

One loop iteration of the render loop, with one constructor per
statement or statement group, in the order the statements appear in the
source. -/

/-- The per-frame steps of the render-loop body. -/
inductive FrameStep where
  | fenceWait        -- vkWaitForFences(device, 1, fences[frameIndex], ...) (line 405)
  | fenceReset       -- vkResetFences (line 406)
  | acquireImage     -- vkAcquireNextImageKHR (line 407)
  | updateUniform    -- memcpy into uniformBuffers[frameIndex].mapped (lines 409-412)
  | cbReset          -- vkResetCommandBuffer (line 416)
  | cbBegin          -- vkBeginCommandBuffer (line 417)
  | barrierLayout    -- vkCmdPipelineBarrier2 for color+depth layout transitions (line 443)
  | beginRendering   -- vkCmdBeginRendering (line 467)
  | setViewport      -- vkCmdSetViewport (line 469)
  | setScissor       -- vkCmdSetScissor (line 471)
  | bindDescriptors  -- vkCmdBindDescriptorSets (line 472)
  | bindPipeline     -- vkCmdBindPipeline (line 473)
  | bindVertexBuffer -- vkCmdBindVertexBuffers (line 475)
  | bindIndexBuffer  -- vkCmdBindIndexBuffer (line 476)
  | pushConstants    -- vkCmdPushConstants (line 478)
  | drawIndexed      -- vkCmdDrawIndexed (line 479)
  | endRendering     -- vkCmdEndRendering (line 480)
  | barrierPresent   -- vkCmdPipelineBarrier2 transitioning to PRESENT_SRC (line 493)
  | cbEnd            -- vkEndCommandBuffer (line 494)
  | submit           -- chk(vkQueueSubmit(...)) (line 507)
  | advanceFrame     -- frameIndex = (frameIndex + 1) % maxFramesInFlight (line 508)
  | present          -- chk(vkQueuePresentKHR(...)) (line 517)
  | pollEvents       -- while (window.pollEvent()) { ... } (lines 520-560)
  deriving DecidableEq, BEq, Repr, Fintype

/-- The statements of one render-loop iteration, in source order
(main.cpp lines 404-560). -/
def frameSteps : List FrameStep :=
  [FrameStep.fenceWait, FrameStep.fenceReset, FrameStep.acquireImage,
   FrameStep.updateUniform, FrameStep.cbReset, FrameStep.cbBegin,
   FrameStep.barrierLayout, FrameStep.beginRendering, FrameStep.setViewport,
   FrameStep.setScissor, FrameStep.bindDescriptors, FrameStep.bindPipeline,
   FrameStep.bindVertexBuffer, FrameStep.bindIndexBuffer, FrameStep.pushConstants,
   FrameStep.drawIndexed, FrameStep.endRendering, FrameStep.barrierPresent,
   FrameStep.cbEnd, FrameStep.submit, FrameStep.advanceFrame, FrameStep.present,
   FrameStep.pollEvents]

/-! ## The double-buffering fence protocol (main.cpp lines 404-508)

Per iteration the loop waits on and resets `fences[frameIndex]`, writes
`uniformBuffers[frameIndex]`, re-records `commandBuffers[frameIndex]`,
submits signalling `fences[frameIndex]`, and then advances
`frameIndex = (frameIndex + 1) % maxFramesInFlight`.  The events below
record which slot each of those statements touches. -/

/-- Slot-indexed events of the render loop. -/
inductive SlotEvent where
  | fenceWait (s : Nat)     -- vkWaitForFences on fences[s] (line 405)
  | fenceReset (s : Nat)    -- vkResetFences on fences[s] (line 406)
  | writeUniform (s : Nat)  -- memcpy into uniformBuffers[s].mapped (line 412)
  | recordCB (s : Nat)      -- reset + re-record of commandBuffers[s] (lines 416-494)
  | submitFence (s : Nat)   -- vkQueueSubmit signalling fences[s] (line 507)
  deriving DecidableEq, Repr

/-- Read the fence phase of slot `s` out of the two-slot state. -/
def getSlot (st : Nat × Nat) (s : Nat) : Nat :=
  if s = 0 then st.1 else st.2

/-- Write the fence phase of slot `s` into the two-slot state. -/
def setSlot (st : Nat × Nat) (s : Nat) (v : Nat) : Nat × Nat :=
  if s = 0 then (v, st.2) else (st.1, v)

/-- One event against the two-slot fence-phase state.  Phase 0 means
the slot's fence has been waited on and reset since its last
submission (or was never submitted; the fences are created signaled),
phase 1 means submitted and not yet waited on, phase 2 means waited on
but not yet reset.  Rewriting a slot's uniform buffer or command
buffer is legal (`some`) only in phase 0 — i.e. only after the fence
signaled by the slot's previous submission has been waited on and
reset. -/
def slotStep (st : Nat × Nat) : SlotEvent → Option (Nat × Nat)
  | SlotEvent.fenceWait s =>
      some (if getSlot st s = 1 then setSlot st s 2 else st)
  | SlotEvent.fenceReset s =>
      some (if getSlot st s = 2 then setSlot st s 0 else st)
  | SlotEvent.writeUniform s =>
      if getSlot st s = 0 then some st else none
  | SlotEvent.recordCB s =>
      if getSlot st s = 0 then some st else none
  | SlotEvent.submitFence s => some (setSlot st s 1)

/-- Run a slot-event trace through `slotStep`; `true` iff no rewrite
ever touched a slot whose fence was still pending. -/
def checkTrace (st : Nat × Nat) : List SlotEvent → Bool
  | [] => true
  | e :: rest =>
    match slotStep st e with
    | none => false
    | some st2 => checkTrace st2 rest

/-- The slot events of one render-loop iteration running with
`frameIndex = f`, in source order. -/
def iterTrace (f : Nat) : List SlotEvent :=
  [SlotEvent.fenceWait f, SlotEvent.fenceReset f, SlotEvent.writeUniform f,
   SlotEvent.recordCB f, SlotEvent.submitFence f]

/-- The slot events of `n` render-loop iterations starting with
`frameIndex = f`; each iteration ends with
`frameIndex = (frameIndex + 1) % maxFramesInFlight` (line 508). -/
def loopTrace : Nat → Nat → List SlotEvent
  | 0, _ => []
  | Nat.succ n, f => iterTrace f ++ loopTrace n ((f + 1) % maxFramesInFlight)

/-- The value of `frameIndex` after `n` loop iterations: it starts at 0
(line 42) and each iteration executes
`frameIndex = (frameIndex + 1) % maxFramesInFlight` exactly once. -/
def frameIndexAfter : Nat → Nat
  | 0 => 0
  | Nat.succ n => (frameIndexAfter n + 1) % maxFramesInFlight

/-! ## Window events (main.cpp lines 520-560)

The event-polling loop at the end of each render-loop iteration.  Four
event kinds are inspected in the source: `Closed`, `MouseMoved`,
`MouseWheelScrolled` and `Resized`. -/

/-- The SFML events the polling loop inspects. -/
inductive SfEvent where
  | closed
  | mouseMoved
  | mouseWheelScrolled
  | resized
  deriving DecidableEq, Repr

/-- Effect of one polled event on the window-open flag: only a `Closed`
event calls `window.close()` (main.cpp lines 521-523); the other events
leave it unchanged. -/
def processEvent (isOpen : Bool) (e : SfEvent) : Bool :=
  match e with
  | SfEvent.closed => false
  | SfEvent.mouseMoved => isOpen
  | SfEvent.mouseWheelScrolled => isOpen
  | SfEvent.resized => isOpen

/-- Which polled events run the swapchain-recreation block: in the
source, `vkCreateSwapchainKHR` inside the loop appears only in the
`Resized` branch (main.cpp lines 535-559). -/
def triggersRecreation (e : SfEvent) : Bool :=
  match e with
  | SfEvent.resized => true
  | _ => false

/-- What `main` does per round at top level: one execution of the
render-loop body, or the one-time teardown after the loop. -/
inductive TopEvent where
  | body
  | teardown
  deriving DecidableEq, Repr

/-- The event-and-render loop `while (window.isOpen()) { ...render...;
...poll events... }` (main.cpp lines 403-561): each round executes the
loop body only when the window-open flag holds, then folds the round's
polled event batch over the flag (a `Closed` event closes the window).
`fuel` bounds the number of rounds considered; `batches` supplies the
events polled in each round. -/
def runLoop (fuel : Nat) (isOpen : Bool) (batches : List (List SfEvent)) :
    List TopEvent :=
  match fuel with
  | 0 => []
  | Nat.succ fuel2 =>
    if isOpen then
      TopEvent.body ::
        runLoop fuel2 (List.foldl processEvent isOpen (batches.headD []))
          batches.tail
    else []

/-- `main` after setup: the event-and-render loop starting with the
window open, followed by the teardown block (main.cpp lines 562-586),
which appears exactly once, after the loop. -/
def mainTrace (fuel : Nat) (batches : List (List SfEvent)) : List TopEvent :=
  runLoop fuel true batches ++ [TopEvent.teardown]

/-! ## The one-time setup sequence (main.cpp lines 91-400)

`main` is a single straight line of setup statements before the render
loop; one constructor per creation step, in source order. -/

/-- The setup steps of `main`, one per creation statement group. -/
inductive SetupStep where
  | createInstance         -- vkCreateInstance (line 103)
  | createDevice           -- vkCreateDevice (line 139)
  | createAllocator        -- vmaCreateAllocator (line 144)
  | createSurface          -- window.createVulkanSurface (line 147)
  | createSwapchain        -- vkCreateSwapchainKHR (line 165)
  | createSwapchainViews   -- vkCreateImageView loop (lines 171-174)
  | createDepthImage       -- vmaCreateImage + view (lines 190-192)
  | loadObjMesh            -- tinyobj::LoadObj + vertex/index arrays (lines 197-206)
  | createVertexBuffer     -- vmaCreateBuffer + memcpy (lines 211-216)
  | createUniformBuffers   -- vmaCreateBuffer loop (lines 218-225)
  | createSyncObjects      -- fences and semaphores (lines 229-236)
  | createCommandPool      -- vkCreateCommandPool + command buffers (lines 239-241)
  | createDescriptorPool   -- vkCreateDescriptorPool (line 245)
  | createTextureImage     -- vmaCreateImage + view + descriptor set (lines 268-275)
  | createSampler          -- vkCreateSampler + descriptor write (lines 286-289)
  | uploadTexture          -- staging buffer, copy, one-time submit (lines 290-340)
  | compileShaders         -- slang session, loadModuleFromSource, getTargetCode (lines 342-351)
  | createShaderModule     -- vkCreateShaderModule (line 354)
  | createPipelineLayout   -- vkCreatePipelineLayout (line 358)
  | createGraphicsPipeline -- vkCreateGraphicsPipelines (line 400)
  deriving DecidableEq, BEq, Repr, Fintype

/-- A top-level phase of `main`: one setup step, the event-and-render
loop, or the teardown block. -/
inductive ProgramPhase where
  | setup (s : SetupStep)
  | renderLoop
  | teardown
  deriving DecidableEq, BEq, Repr

/-- The setup steps in the order they appear in `main`. -/
def setupSteps : List SetupStep :=
  [SetupStep.createInstance, SetupStep.createDevice, SetupStep.createAllocator,
   SetupStep.createSurface, SetupStep.createSwapchain,
   SetupStep.createSwapchainViews, SetupStep.createDepthImage,
   SetupStep.loadObjMesh, SetupStep.createVertexBuffer,
   SetupStep.createUniformBuffers, SetupStep.createSyncObjects,
   SetupStep.createCommandPool, SetupStep.createDescriptorPool,
   SetupStep.createTextureImage, SetupStep.createSampler,
   SetupStep.uploadTexture, SetupStep.compileShaders,
   SetupStep.createShaderModule, SetupStep.createPipelineLayout,
   SetupStep.createGraphicsPipeline]

/-- The top-level phases of `main` in source order: the setup steps,
then the render loop (lines 403-561), then teardown (lines 562-586). -/
def mainProgram : List ProgramPhase :=
  setupSteps.map ProgramPhase.setup ++
    [ProgramPhase.renderLoop, ProgramPhase.teardown]

/-- The `createInfoCount` argument of the single
`vkCreateGraphicsPipelines` call (main.cpp line 400): one pipeline is
created. -/
def graphicsPipelineCreateCount : Nat := 1

/-! ## Created objects and the resize handler (main.cpp lines 535-559)

Vulkan handles are modelled as `Nat` identifiers; a handle-valued
global of main.cpp becomes a field, and vectors of handles become
lists.  The `Resized` branch of the event loop recreates the swapchain
(passing the old one as `oldSwapchain`), the swapchain image views, and
the depth image and its view, destroying each old object it replaces;
it touches no other field. -/

/-- The created objects of main.cpp held in globals. -/
structure Resources where
  swapchain : Nat
  swapchainImageViews : List Nat
  depthImage : Nat
  depthImageView : Nat
  pipeline : Nat
  pipelineLayout : Nat
  vBuffer : Nat
  uniformBuffers : List Nat
  textureImage : Nat
  textureSampler : Nat
  textureDescriptorSet : Nat
  fences : List Nat
  presentSemaphores : List Nat
  renderSemaphores : List Nat
  deriving DecidableEq, Repr

/-- The Vulkan calls the `Resized` handler issues, in order. -/
inductive ResizeAction where
  | deviceWaitIdle                                       -- line 536
  | createSwapchain (oldSwapchain : Nat) (nw : Nat)      -- lines 537-539
  | destroyImageView (v : Nat)                           -- lines 540-542
  | createImageView (v : Nat)                            -- lines 547-550
  | destroySwapchain (s : Nat)                           -- line 551
  | destroyDepthImage (d : Nat)                          -- line 552
  | destroyDepthImageView (v : Nat)                      -- line 553
  | createDepthImage (d : Nat)                           -- line 556
  | createDepthImageView (v : Nat)                       -- line 558
  deriving DecidableEq, Repr

/-- Whether a resize action destroys an object. -/
def isDestroyAction : ResizeAction → Bool
  | ResizeAction.destroyImageView _ => true
  | ResizeAction.destroySwapchain _ => true
  | ResizeAction.destroyDepthImage _ => true
  | ResizeAction.destroyDepthImageView _ => true
  | _ => false

/-- The `Resized` event handler (main.cpp lines 535-559): wait idle;
create a new swapchain with the current one as `oldSwapchain`; destroy
every old swapchain image view (the loop at line 540 runs over the old
image count); re-query the images (`newCount` of them) and create one
view per new image; destroy the old swapchain; destroy the old depth
image and old depth image view; create a new depth image and view.
`fresh` seeds the identifiers of the newly created handles.  Returns
the updated globals and the action trace. -/
def resizedHandler (st : Resources) (newCount : Nat) (fresh : Nat) :
    Resources × List ResizeAction :=
  let newSwapchain := fresh
  let newViews := (List.range newCount).map (fun i => fresh + 1 + i)
  let newDepthImage := fresh + 1 + newCount
  let newDepthView := fresh + 2 + newCount
  ({ st with
      swapchain := newSwapchain,
      swapchainImageViews := newViews,
      depthImage := newDepthImage,
      depthImageView := newDepthView },
   [ResizeAction.deviceWaitIdle,
    ResizeAction.createSwapchain st.swapchain newSwapchain] ++
     st.swapchainImageViews.map ResizeAction.destroyImageView ++
     newViews.map ResizeAction.createImageView ++
     [ResizeAction.destroySwapchain st.swapchain,
      ResizeAction.destroyDepthImage st.depthImage,
      ResizeAction.destroyDepthImageView st.depthImageView,
      ResizeAction.createDepthImage newDepthImage,
      ResizeAction.createDepthImageView newDepthView])

/-- Line 233: `renderSemaphores.resize(swapchainImages.size())` — the
vector is sized once, to the initial swapchain image count, and no
later statement resizes it. -/
def initialRenderSemaphoreCount (initialImageCount : Nat) : Nat :=
  initialImageCount

/-- The per-slot destroy calls of the teardown block. -/
inductive TeardownAction where
  | destroyFence (i : Nat)             -- line 565
  | destroyPresentSemaphore (i : Nat)  -- line 566
  | destroyRenderSemaphore (i : Nat)   -- line 567
  | unmapUniform (i : Nat)             -- line 568
  | destroyUniformBuffer (i : Nat)     -- line 569
  deriving DecidableEq, Repr

/-- The teardown loop `for (i = 0; i < maxFramesInFlight; i++)`
(main.cpp lines 564-570): it iterates over slot indices 0 and 1 only,
whatever size `renderSemaphores` has. -/
def teardownSlotTrace : List TeardownAction :=
  ((List.range maxFramesInFlight).map fun i =>
    [TeardownAction.destroyFence i, TeardownAction.destroyPresentSemaphore i,
     TeardownAction.destroyRenderSemaphore i, TeardownAction.unmapUniform i,
     TeardownAction.destroyUniformBuffer i]).flatten

/-- Concrete globals used to instantiate hypothesis-bearing theorems. -/
def sampleResources : Resources :=
  { swapchain := 1, swapchainImageViews := [2, 3, 4], depthImage := 5,
    depthImageView := 6, pipeline := 7, pipelineLayout := 8, vBuffer := 9,
    uniformBuffers := [10, 11], textureImage := 12, textureSampler := 13,
    textureDescriptorSet := 14, fences := [15, 16],
    presentSemaphores := [17, 18], renderSemaphores := [19, 20, 21] }

/-! ## Mesh loading (main.cpp lines 193-208 and 476-479)

The loop `for (auto& index : shapes[0].mesh.indices)` pushes one
vertex per OBJ index into `vertices` and pushes `indices.size()` — the
running length of the index vector — into the
`std::vector<uint16_t> indices`, where the `size_t` value truncates to
16 bits.  The vertex built from the attribute arrays is abstracted by
`mkVertex` (its floating-point coordinates play no role in the
claims). -/

/-- The OBJ-loading loop (main.cpp lines 202-206), returning the
`vertices` and `indices` vectors. -/
def loadMeshLoop {α β : Type} (mkVertex : α → β) (objIndices : List α) :
    List β × List Nat :=
  objIndices.foldl
    (fun m idx => (m.1 ++ [mkVertex idx], m.2 ++ [m.2.length % 65536]))
    ([], [])

/-- `const VkDeviceSize indexCount{shapes[0].mesh.indices.size()}`
(line 198) — the count later passed to `vkCmdDrawIndexed` (line 479). -/
def meshIndexCount {α : Type} (objIndices : List α) : Nat :=
  objIndices.length

/-! ## Theorems -/

/-- C8: `chk(bool)` on a failing boolean-returning operation exits with
`exit(false)`, i.e. argument 0, whose process exit status is 0 — the
status that conventionally signals success — so a boolean failure is
indistinguishable from a successful run by exit code. -/
theorem C8_theorem :
    chkBool false = ChkOutcome.exited 0 ∧ processStatus 0 = 0 := by
  constructor
  · rfl
  · rfl

/-- C1 counterexample: the claim orders the per-frame steps as "acquire
a swapchain image, then wait on the per-frame fence", but in the loop
body each step occurs exactly once and the fence wait comes strictly
before the image acquire (main.cpp lines 405 and 407), so acquire does
not precede the fence wait. -/
theorem C1_counterexample :
    List.indexOf FrameStep.fenceWait frameSteps <
      List.indexOf FrameStep.acquireImage frameSteps ∧
    List.count FrameStep.fenceWait frameSteps = 1 ∧
    List.count FrameStep.acquireImage frameSteps = 1 ∧
    ¬ List.indexOf FrameStep.acquireImage frameSteps <
        List.indexOf FrameStep.fenceWait frameSteps := by
  decide

/-- C1 (amended): in every render-loop iteration the per-frame steps
occur in this order: wait on (and reset) the per-frame fence, then
acquire a swapchain image, then record the fixed command sequence
(layout transitions, begin a dynamic render pass, bind resources, draw,
end the pass, transition to present), then submit, then present; and
each of these steps occurs exactly once per iteration. -/
theorem C1_theorem :
    (List.indexOf FrameStep.fenceWait frameSteps <
       List.indexOf FrameStep.fenceReset frameSteps ∧
     List.indexOf FrameStep.fenceReset frameSteps <
       List.indexOf FrameStep.acquireImage frameSteps ∧
     List.indexOf FrameStep.acquireImage frameSteps <
       List.indexOf FrameStep.cbBegin frameSteps ∧
     List.indexOf FrameStep.cbBegin frameSteps <
       List.indexOf FrameStep.barrierLayout frameSteps ∧
     List.indexOf FrameStep.barrierLayout frameSteps <
       List.indexOf FrameStep.beginRendering frameSteps ∧
     List.indexOf FrameStep.beginRendering frameSteps <
       List.indexOf FrameStep.bindDescriptors frameSteps ∧
     List.indexOf FrameStep.bindDescriptors frameSteps <
       List.indexOf FrameStep.drawIndexed frameSteps ∧
     List.indexOf FrameStep.drawIndexed frameSteps <
       List.indexOf FrameStep.endRendering frameSteps ∧
     List.indexOf FrameStep.endRendering frameSteps <
       List.indexOf FrameStep.barrierPresent frameSteps ∧
     List.indexOf FrameStep.barrierPresent frameSteps <
       List.indexOf FrameStep.cbEnd frameSteps ∧
     List.indexOf FrameStep.cbEnd frameSteps <
       List.indexOf FrameStep.submit frameSteps ∧
     List.indexOf FrameStep.submit frameSteps <
       List.indexOf FrameStep.present frameSteps) ∧
    (∀ s : FrameStep, List.count s frameSteps = 1) := by
  decide

/-- C2 counterexample: when `vkQueuePresentKHR` reports
VK_ERROR_OUT_OF_DATE_KHR, the result goes through `chk`, which
terminates the process (exit) instead of recreating the swapchain; and
the result of `vkAcquireNextImageKHR` is discarded outright, so an
out-of-date result there triggers nothing at all. -/
theorem C2_counterexample :
    onPresentResult VK_ERROR_OUT_OF_DATE_KHR =
      ChkOutcome.exited VK_ERROR_OUT_OF_DATE_KHR ∧
    onAcquireResult VK_ERROR_OUT_OF_DATE_KHR = ChkOutcome.passed := by
  constructor
  · decide
  · rfl

/-- C2 (amended): the program never reacts to VK_ERROR_OUT_OF_DATE_KHR
by recreating the swapchain: an out-of-date result from
`vkQueuePresentKHR` terminates the process via `chk`, the result of
`vkAcquireNextImageKHR` is discarded (control always continues), and
the swapchain and its dependent image views are torn down and recreated
only in response to the window system's `Resized` event. -/
theorem C2_theorem :
    onPresentResult VK_ERROR_OUT_OF_DATE_KHR =
      ChkOutcome.exited VK_ERROR_OUT_OF_DATE_KHR ∧
    (∀ r : Int, onAcquireResult r = ChkOutcome.passed) ∧
    (∀ e : SfEvent, triggersRecreation e = true ↔ e = SfEvent.resized) := by
  refine ⟨by decide, fun r => rfl, fun e => ?_⟩
  cases e <;> simp [triggersRecreation]

/-- Helper: a straight-line run of checked operations executes exactly
the statements up to and including the first failing one. -/
theorem runChecked_stops_at_failure (pre : List CheckedResult)
    (c : CheckedResult) (post : List CheckedResult)
    (hpre : ∀ x ∈ pre, isFailure x = false) (hc : isFailure c = true) :
    runChecked (pre ++ c :: post) = pre.length + 1 := by
  induction pre with
  | nil =>
    simp only [List.nil_append, List.length_nil, Nat.zero_add]
    cases c with
    | vk r =>
      simp only [isFailure, decide_eq_true_eq] at hc
      simp [runChecked, chkResult, chkVk, hc]
    | boolean b =>
      simp only [isFailure, Bool.not_eq_true'] at hc
      subst hc
      simp [runChecked, chkResult, chkBool]
  | cons a rest ih =>
    have ha : isFailure a = false := hpre a (List.mem_cons_self a rest)
    have hrest : ∀ x ∈ rest, isFailure x = false := fun x hx =>
      hpre x (List.mem_cons_of_mem a hx)
    have hstep : chkResult a = ChkOutcome.passed := by
      cases a with
      | vk r =>
        simp only [isFailure, decide_eq_false_iff_not, not_not] at ha
        simp [chkResult, chkVk, ha]
      | boolean b =>
        simp only [isFailure, Bool.not_eq_false'] at ha
        subst ha
        simp [chkResult, chkBool]
    simp only [List.cons_append, runChecked, hstep, List.length_cons,
      List.append_eq]
    rw [ih hrest]
    omega

/-- C3: for every checked operation, any error result (a VkResult other
than VK_SUCCESS, or a false boolean) terminates the process immediately:
`chk` returns an exited outcome exactly on failures, and in a
straight-line run of checked statements, once `chk` observes a failure
no further statement executes — exactly the statements before the
failure, plus the failing one, run. -/
theorem C3_theorem (pre : List CheckedResult) (c : CheckedResult)
    (post : List CheckedResult)
    (hpre : ∀ x ∈ pre, isFailure x = false) (hc : isFailure c = true) :
    (∃ code, chkResult c = ChkOutcome.exited code) ∧
    runChecked (pre ++ c :: post) = pre.length + 1 ∧
    pre.length + 1 < (pre ++ c :: post).length + 1 := by
  refine ⟨?_, runChecked_stops_at_failure pre c post hpre hc, ?_⟩
  · cases c with
    | vk r =>
      simp only [isFailure, decide_eq_true_eq] at hc
      exact ⟨r, by simp [chkResult, chkVk, hc]⟩
    | boolean b =>
      simp only [isFailure, Bool.not_eq_true'] at hc
      subst hc
      exact ⟨0, by simp [chkResult, chkBool, boolToInt]⟩
  · simp only [List.length_append, List.length_cons]
    omega

/-- C3 witness: concrete run `[vk 0] ++ vk 5 :: [boolean true]` — the
first statement passes, the failing `vk 5` exits, and the trailing
statement never executes (2 of the 3 statements run). -/
theorem C3_witness :
    (∀ x ∈ [CheckedResult.vk 0], isFailure x = false) ∧
    isFailure (CheckedResult.vk 5) = true ∧
    ((∃ code, chkResult (CheckedResult.vk 5) = ChkOutcome.exited code) ∧
     runChecked ([CheckedResult.vk 0] ++ CheckedResult.vk 5 ::
       [CheckedResult.boolean true]) = [CheckedResult.vk 0].length + 1 ∧
     [CheckedResult.vk 0].length + 1 <
       ([CheckedResult.vk 0] ++ CheckedResult.vk 5 ::
         [CheckedResult.boolean true]).length + 1) :=
  ⟨by decide, by decide,
   C3_theorem [CheckedResult.vk 0] (CheckedResult.vk 5)
     [CheckedResult.boolean true] (by decide) (by decide)⟩

/-- Helper: one iteration of the loop always passes the fence-protocol
check — the wait and reset on slot `f` bring its phase to 0 before the
slot's buffers are rewritten — and leaves slot `f` in phase 1
(submitted). -/
theorem checkTrace_iter (f : Nat) (hf : f < 2) (st : Nat × Nat)
    (h : getSlot st f ≤ 2) (rest : List SlotEvent) :
    checkTrace st (iterTrace f ++ rest) = checkTrace (setSlot st f 1) rest := by
  obtain ⟨a, b⟩ := st
  interval_cases f
  · simp [getSlot] at h
    interval_cases a <;> rfl
  · simp [getSlot] at h
    interval_cases b <;> rfl

/-- Helper: the fence-protocol check passes on every prefix of the
render loop's slot-event trace, from any two-slot state whose phases
are in range. -/
theorem checkTrace_loopTrace (n : Nat) : ∀ f : Nat, f < 2 → ∀ st : Nat × Nat,
    st.1 ≤ 2 → st.2 ≤ 2 → checkTrace st (loopTrace n f) = true := by
  induction n with
  | zero => intro f _ st _ _; rfl
  | succ n ih =>
    intro f hf st h1 h2
    have hslot : getSlot st f ≤ 2 := by
      interval_cases f
      · simpa [getSlot] using h1
      · simpa [getSlot] using h2
    rw [loopTrace, checkTrace_iter f hf st hslot]
    apply ih
    · exact Nat.mod_lt _ (by decide)
    · interval_cases f <;> simp [setSlot, h1, h2]
    · interval_cases f <;> simp [setSlot, h1, h2]

/-- C4: the double-buffering invariant holds: after any number of loop
iterations `frameIndex` is strictly below `maxFramesInFlight = 2`; each
iteration advances it by exactly `(frameIndex + 1) % maxFramesInFlight`
once; and over the whole slot-event trace of the loop, the uniform
buffer and command buffer of a slot are rewritten only when that slot's
fence phase is 0, i.e. only after the fence signaled by the slot's
previous submission has been waited on and reset. -/
theorem C4_theorem (n : Nat) :
    frameIndexAfter n < maxFramesInFlight ∧
    frameIndexAfter (n + 1) = (frameIndexAfter n + 1) % maxFramesInFlight ∧
    checkTrace (0, 0) (loopTrace n 0) = true := by
  refine ⟨?_, rfl, checkTrace_loopTrace n 0 (by decide) (0, 0) (by decide) (by decide)⟩
  cases n with
  | zero => decide
  | succ n => exact Nat.mod_lt _ (by decide)

/-- Helper: once the window is closed, no later event reopens it. -/
theorem processEvent_closed_absorbs (e : SfEvent) :
    processEvent false e = false := by
  cases e <;> rfl

/-- Helper: folding any event batch over a closed window leaves it
closed. -/
theorem foldl_processEvent_false (batch : List SfEvent) :
    List.foldl processEvent false batch = false := by
  induction batch with
  | nil => rfl
  | cons e rest ih => rw [List.foldl_cons, processEvent_closed_absorbs, ih]

/-- Helper: a batch containing a `Closed` event leaves the window
closed, whatever the open flag was. -/
theorem foldl_processEvent_of_closed (batch : List SfEvent) (o : Bool)
    (hc : SfEvent.closed ∈ batch) :
    List.foldl processEvent o batch = false := by
  induction batch generalizing o with
  | nil => cases hc
  | cons e rest ih =>
    rcases List.mem_cons.mp hc with he | hrest
    · subst he
      rw [List.foldl_cons]
      exact foldl_processEvent_false rest
    · rw [List.foldl_cons]
      exact ih (processEvent o e) hrest

/-- Helper: with the window closed the loop body never runs. -/
theorem runLoop_closed (fuel : Nat) (batches : List (List SfEvent)) :
    runLoop fuel false batches = [] := by
  cases fuel <;> rfl

/-- Helper: the loop itself never emits a teardown event. -/
theorem teardown_not_in_runLoop (fuel : Nat) :
    ∀ (o : Bool) (batches : List (List SfEvent)),
      TopEvent.teardown ∉ runLoop fuel o batches := by
  induction fuel with
  | zero => intro o batches h; cases h
  | succ fuel2 ih =>
    intro o batches h
    cases o with
    | false => cases h
    | true =>
      rw [runLoop, if_pos rfl] at h
      rcases List.mem_cons.mp h with h1 | h2
      · cases h1
      · exact ih _ _ h2

/-- Helper: appending a singleton puts that element last. -/
theorem getLast?_append_singleton {α : Type} (l : List α) (x : α) :
    (l ++ [x]).getLast? = some x := by
  induction l with
  | nil => rfl
  | cons a rest ih =>
    rw [List.cons_append, List.getLast?_cons, ih]
    rfl

/-- C6: the event-and-render loop runs while and only while the window
is open: with the window closed no loop body executes; a `Closed` event
closes the window; once a round's event batch contains `Closed`, the
loop exits after that round (at most one body runs from there); and the
teardown block runs exactly once, after the loop. -/
theorem C6_theorem (fuel : Nat) (batch : List SfEvent)
    (batches : List (List SfEvent)) (hc : SfEvent.closed ∈ batch) :
    runLoop fuel false (batch :: batches) = [] ∧
    (∀ o : Bool, processEvent o SfEvent.closed = false) ∧
    (runLoop fuel true (batch :: batches)).length ≤ 1 ∧
    List.count TopEvent.teardown (mainTrace fuel (batch :: batches)) = 1 ∧
    (mainTrace fuel (batch :: batches)).getLast? = some TopEvent.teardown := by
  refine ⟨runLoop_closed fuel _, fun o => rfl, ?_, ?_, ?_⟩
  · cases fuel with
    | zero => simp [runLoop]
    | succ fuel2 =>
      rw [runLoop, if_pos rfl]
      simp only [List.headD_cons, List.tail_cons,
        foldl_processEvent_of_closed batch true hc, runLoop_closed]
      simp
  · rw [mainTrace, List.count_append]
    rw [List.count_eq_zero.mpr (teardown_not_in_runLoop fuel true _)]
    rfl
  · exact getLast?_append_singleton _ _

/-- C6 witness: a concrete run of two rounds of fuel whose first event
batch contains the `Closed` event. -/
theorem C6_witness :
    SfEvent.closed ∈ [SfEvent.closed] ∧
    (runLoop 2 false ([SfEvent.closed] :: []) = [] ∧
     (∀ o : Bool, processEvent o SfEvent.closed = false) ∧
     (runLoop 2 true ([SfEvent.closed] :: [])).length ≤ 1 ∧
     List.count TopEvent.teardown (mainTrace 2 ([SfEvent.closed] :: [])) = 1 ∧
     (mainTrace 2 ([SfEvent.closed] :: [])).getLast? =
       some TopEvent.teardown) :=
  ⟨by decide, C6_theorem 2 [SfEvent.closed] [] (by decide)⟩

/-- C5: the one-time setup executes exactly once, before the render
loop, in the stated order: create the instance and device, then build
the swapchain, then allocate buffers and images (depth image, vertex
buffer, uniform buffers, texture image — all after the swapchain and
before the shaders), then compile the shaders, then build exactly one
graphics pipeline; only then does the event-and-render loop begin, and
it precedes the single teardown. -/
theorem C5_theorem :
    (∀ s : SetupStep, List.count (ProgramPhase.setup s) mainProgram = 1) ∧
    List.count ProgramPhase.renderLoop mainProgram = 1 ∧
    (∀ s : SetupStep,
      List.indexOf (ProgramPhase.setup s) mainProgram <
        List.indexOf ProgramPhase.renderLoop mainProgram) ∧
    List.indexOf (ProgramPhase.setup SetupStep.createInstance) mainProgram <
      List.indexOf (ProgramPhase.setup SetupStep.createDevice) mainProgram ∧
    List.indexOf (ProgramPhase.setup SetupStep.createDevice) mainProgram <
      List.indexOf (ProgramPhase.setup SetupStep.createSwapchain) mainProgram ∧
    (List.indexOf (ProgramPhase.setup SetupStep.createSwapchain) mainProgram <
       List.indexOf (ProgramPhase.setup SetupStep.createDepthImage) mainProgram ∧
     List.indexOf (ProgramPhase.setup SetupStep.createSwapchain) mainProgram <
       List.indexOf (ProgramPhase.setup SetupStep.createVertexBuffer) mainProgram ∧
     List.indexOf (ProgramPhase.setup SetupStep.createSwapchain) mainProgram <
       List.indexOf (ProgramPhase.setup SetupStep.createUniformBuffers) mainProgram ∧
     List.indexOf (ProgramPhase.setup SetupStep.createSwapchain) mainProgram <
       List.indexOf (ProgramPhase.setup SetupStep.createTextureImage) mainProgram ∧
     List.indexOf (ProgramPhase.setup SetupStep.createDepthImage) mainProgram <
       List.indexOf (ProgramPhase.setup SetupStep.compileShaders) mainProgram ∧
     List.indexOf (ProgramPhase.setup SetupStep.createVertexBuffer) mainProgram <
       List.indexOf (ProgramPhase.setup SetupStep.compileShaders) mainProgram ∧
     List.indexOf (ProgramPhase.setup SetupStep.createUniformBuffers) mainProgram <
       List.indexOf (ProgramPhase.setup SetupStep.compileShaders) mainProgram ∧
     List.indexOf (ProgramPhase.setup SetupStep.createTextureImage) mainProgram <
       List.indexOf (ProgramPhase.setup SetupStep.compileShaders) mainProgram) ∧
    List.indexOf (ProgramPhase.setup SetupStep.compileShaders) mainProgram <
      List.indexOf (ProgramPhase.setup SetupStep.createGraphicsPipeline)
        mainProgram ∧
    List.indexOf (ProgramPhase.setup SetupStep.createGraphicsPipeline)
        mainProgram <
      List.indexOf ProgramPhase.renderLoop mainProgram ∧
    List.indexOf ProgramPhase.renderLoop mainProgram <
      List.indexOf ProgramPhase.teardown mainProgram ∧
    graphicsPipelineCreateCount = 1 := by
  decide

/-- Helper: destroy-view actions all pass the destroy filter. -/
theorem filter_destroyImageView (l : List Nat) :
    List.filter isDestroyAction (l.map ResizeAction.destroyImageView) =
      l.map ResizeAction.destroyImageView := by
  induction l with
  | nil => rfl
  | cons a t ih => simp [List.filter, isDestroyAction, ih]

/-- Helper: create-view actions all fail the destroy filter. -/
theorem filter_createImageView (l : List Nat) :
    List.filter isDestroyAction (l.map ResizeAction.createImageView) = [] := by
  induction l with
  | nil => rfl
  | cons a t ih => simp [List.filter, isDestroyAction, ih]

/-- C7: the resize handler replaces only the swapchain, the swapchain
image views, and the depth image and its view; the destroy actions it
issues are exactly the old swapchain image views, the old swapchain
(which was also passed as `oldSwapchain` to the new swapchain's
creation), the old depth image and the old depth image view; and every
other created object — pipeline, pipeline layout, vertex/uniform
buffers, texture image, sampler, descriptor set, fences, and all
semaphores — is left unchanged. -/
theorem C7_theorem (st : Resources) (newCount fresh : Nat) :
    ((resizedHandler st newCount fresh).1.pipeline = st.pipeline ∧
     (resizedHandler st newCount fresh).1.pipelineLayout = st.pipelineLayout ∧
     (resizedHandler st newCount fresh).1.vBuffer = st.vBuffer ∧
     (resizedHandler st newCount fresh).1.uniformBuffers = st.uniformBuffers ∧
     (resizedHandler st newCount fresh).1.textureImage = st.textureImage ∧
     (resizedHandler st newCount fresh).1.textureSampler = st.textureSampler ∧
     (resizedHandler st newCount fresh).1.textureDescriptorSet =
       st.textureDescriptorSet ∧
     (resizedHandler st newCount fresh).1.fences = st.fences ∧
     (resizedHandler st newCount fresh).1.presentSemaphores =
       st.presentSemaphores ∧
     (resizedHandler st newCount fresh).1.renderSemaphores =
       st.renderSemaphores) ∧
    List.filter isDestroyAction (resizedHandler st newCount fresh).2 =
      st.swapchainImageViews.map ResizeAction.destroyImageView ++
        [ResizeAction.destroySwapchain st.swapchain,
         ResizeAction.destroyDepthImage st.depthImage,
         ResizeAction.destroyDepthImageView st.depthImageView] ∧
    ResizeAction.createSwapchain st.swapchain fresh ∈
      (resizedHandler st newCount fresh).2 ∧
    (resizedHandler st newCount fresh).1.swapchainImageViews.length =
      newCount := by
  refine ⟨⟨rfl, rfl, rfl, rfl, rfl, rfl, rfl, rfl, rfl, rfl⟩, ?_, ?_, ?_⟩
  · simp only [resizedHandler, List.filter_append, filter_destroyImageView,
      filter_createImageView]
    simp [List.filter, isDestroyAction]
  · simp [resizedHandler]
  · simp [resizedHandler]

/-- Helper: the teardown loop destroys `renderSemaphores[i]` exactly
for the slot indices `i < maxFramesInFlight`. -/
theorem teardown_destroys_first_two (c : Nat) :
    TeardownAction.destroyRenderSemaphore c ∈ teardownSlotTrace ↔
      c < maxFramesInFlight := by
  have h : teardownSlotTrace =
      [TeardownAction.destroyFence 0, TeardownAction.destroyPresentSemaphore 0,
       TeardownAction.destroyRenderSemaphore 0, TeardownAction.unmapUniform 0,
       TeardownAction.destroyUniformBuffer 0, TeardownAction.destroyFence 1,
       TeardownAction.destroyPresentSemaphore 1,
       TeardownAction.destroyRenderSemaphore 1, TeardownAction.unmapUniform 1,
       TeardownAction.destroyUniformBuffer 1] := rfl
  rw [h]
  simp only [List.mem_cons, List.not_mem_nil, or_false]
  constructor
  · rintro (h1 | h1 | h1 | h1 | h1 | h1 | h1 | h1 | h1 | h1) <;>
      cases h1 <;> decide
  · intro hc
    simp only [maxFramesInFlight] at hc
    interval_cases c
    · exact Or.inr (Or.inr (Or.inl rfl))
    · exact Or.inr (Or.inr (Or.inr (Or.inr (Or.inr (Or.inr (Or.inr
        (Or.inl rfl)))))))

/-- C9: `renderSemaphores` is sized once to the initial swapchain image
count and the resize handler never touches it; an access
`renderSemaphores[imageIndex]` with `imageIndex` below the recreated
swapchain's image count is in bounds when that count does not exceed
the initial one, and as soon as it does exceed it there is an in-range
`imageIndex` that is out of bounds; and the teardown loop destroys
exactly the first `maxFramesInFlight` elements of the vector, whatever
its size. -/
theorem C9_theorem (st : Resources) (newCount fresh init nw idx : Nat)
    (h1 : idx < nw) (h2 : nw ≤ init) :
    initialRenderSemaphoreCount init = init ∧
    (resizedHandler st newCount fresh).1.renderSemaphores =
      st.renderSemaphores ∧
    idx < initialRenderSemaphoreCount init ∧
    (∀ n2 : Nat, initialRenderSemaphoreCount n2 < n2 + 1 ∧
      ¬ n2 < initialRenderSemaphoreCount n2) ∧
    (∀ c : Nat, TeardownAction.destroyRenderSemaphore c ∈ teardownSlotTrace ↔
      c < maxFramesInFlight) := by
  refine ⟨rfl, rfl, ?_, ?_, teardown_destroys_first_two⟩
  · exact Nat.lt_of_lt_of_le h1 h2
  · intro n2
    exact ⟨Nat.lt_succ_self n2, Nat.lt_irrefl n2⟩

/-- C9 witness: a concrete resize (image count 3 initially, 3 after
recreation, accessed at imageIndex 2) against the sample globals. -/
theorem C9_witness :
    (2 : Nat) < 3 ∧ (3 : Nat) ≤ 3 ∧
    (initialRenderSemaphoreCount 3 = 3 ∧
     (resizedHandler sampleResources 2 30).1.renderSemaphores =
       sampleResources.renderSemaphores ∧
     2 < initialRenderSemaphoreCount 3 ∧
     (∀ n2 : Nat, initialRenderSemaphoreCount n2 < n2 + 1 ∧
       ¬ n2 < initialRenderSemaphoreCount n2) ∧
     (∀ c : Nat, TeardownAction.destroyRenderSemaphore c ∈ teardownSlotTrace ↔
       c < maxFramesInFlight)) :=
  ⟨by decide, by decide, C9_theorem sampleResources 2 30 3 3 2 (by decide) (by decide)⟩

/-- Helper: running the OBJ-loading fold from any intermediate state
appends one vertex per OBJ index and the running lengths truncated to
16 bits. -/
theorem loadMeshLoop_go {α β : Type} (mk : α → β) :
    ∀ (l : List α) (m : List β × List Nat),
      List.foldl
        (fun m2 idx => (m2.1 ++ [mk idx], m2.2 ++ [m2.2.length % 65536])) m l =
      (m.1 ++ l.map mk,
       m.2 ++ (List.range l.length).map (fun j => (m.2.length + j) % 65536)) := by
  intro l
  induction l with
  | nil => intro m; simp
  | cons a t ih =>
    intro m
    rw [List.foldl_cons, ih]
    refine Prod.ext ?_ ?_
    · simp
    · simp only [List.length_append, List.length_cons, List.length_nil,
        Nat.add_zero, List.length_range]
      rw [List.append_assoc, List.singleton_append, List.range_succ_eq_map,
        List.map_cons, List.map_map]
      refine congrArg (fun x => m.2 ++ x) ?_
      refine List.cons_eq_cons.mpr ⟨?_, ?_⟩
      · omega
      · refine List.map_congr_left ?_
        intro j hj
        simp only [Function.comp_apply]
        congr 1
        omega

/-- C10: the OBJ loading produces one vertex per OBJ index, so both
arrays have length `indexCount`; every generated index is its own
position truncated to 16 bits (`indices[i] = i mod 2^16`); and the
index array is the identity mapping onto the vertex array exactly when
the mesh has at most 65536 indices. -/
theorem C10_theorem {α β : Type} (mkVertex : α → β) (objIndices : List α) :
    (loadMeshLoop mkVertex objIndices).1.length = meshIndexCount objIndices ∧
    (loadMeshLoop mkVertex objIndices).2 =
      (List.range (meshIndexCount objIndices)).map (fun j => j % 65536) ∧
    ((loadMeshLoop mkVertex objIndices).2 =
        List.range (meshIndexCount objIndices) ↔
      meshIndexCount objIndices ≤ 65536) := by
  have hgo := loadMeshLoop_go mkVertex objIndices ([], [])
  have h1 : (loadMeshLoop mkVertex objIndices).1 = objIndices.map mkVertex := by
    rw [loadMeshLoop, hgo]
    simp
  have h2 : (loadMeshLoop mkVertex objIndices).2 =
      (List.range objIndices.length).map (fun j => j % 65536) := by
    rw [loadMeshLoop, hgo]
    simp
  refine ⟨by rw [h1]; simp [meshIndexCount], by rw [h2]; rfl, ?_⟩
  rw [h2, meshIndexCount]
  constructor
  · intro heq
    by_contra hgt
    push_neg at hgt
    have hb : 65536 < objIndices.length := hgt
    have h3 := congrArg (fun l => l.getD 65536 0) heq
    simp only [List.getD_eq_getElem?_getD, List.getElem?_map,
      List.getElem?_range hb] at h3
    simp at h3
  · intro hle
    apply List.ext_getElem
    · simp
    · intro i hi1 hi2
      simp only [List.getElem_map, List.getElem_range]
      have : i < 65536 := by
        simp only [List.length_range] at hi2
        omega
      exact Nat.mod_eq_of_lt this
